import Mathlib

/-!
Shallow embedding of the link-liveness rule `textlint-rule-no-dead-link`
(file `src/no-dead-link.ts`): the configuration record, the URI classifier
`isRelative`, the header-attaching fetch wrapper, the retrying redirect-aware
prober `isAliveURI`, the outcome interpretation of the orchestrator's `lint`,
and the `p-memoize` result cache.  Platform functions (WHATWG `URL.parse`,
`path.isAbsolute`, the network) are abstracted as explicit parameters; the
prober is modelled as a pure function that also returns the sequence of HTTP
requests it issued and the sequence of waits it performed.
-/

namespace NoDeadLink

/-- The `Options` record of the rule, with numeric fields as naturals. -/
structure Options where
  checkRelative : Bool
  baseURI : Option String
  ignoreList : List String
  dotInIgnore : Bool
  ignoreRedirects : Bool
  preferGET : List String
  retry : Nat
  concurrency : Nat
  interval : Nat
  intervalCap : Nat
  userAgent : String
  maxRetryTime : Nat
  maxRetryAfterTime : Nat
  linkMaxAge : Nat
  httpOnly : Bool
deriving DecidableEq

/-- The `DEFAULT_OPTIONS` record of the source. -/
def DEFAULT_OPTIONS : Options :=
  { checkRelative := true
    baseURI := none
    ignoreList := []
    dotInIgnore := false
    ignoreRedirects := false
    preferGET := []
    retry := 3
    concurrency := 8
    interval := 500
    intervalCap := 8
    userAgent := "textlint-rule-no-dead-link/1.0"
    maxRetryTime := 10
    maxRetryAfterTime := 10
    linkMaxAge := 30 * 1000
    httpOnly := false }

/-- The `isRedirect` function of the source: the redirect status codes of the fetch spec. -/
def isRedirect (code : Nat) : Bool :=
  code == 301 || code == 302 || code == 303 || code == 307 || code == 308

/-- The two fields of a parsed WHATWG URL that `isRelative` inspects.
JavaScript falsiness of `protocol` and `host` corresponds to `""`. -/
structure ParsedURL where
  protocol : String
  host : String
deriving DecidableEq

/-- The `isRelative` function of the source, parametrised by the platform functions
`URL.parse` (`parse`; `none` models a `null` parse result) and
`path.isAbsolute` (`isAbs`).  Total by construction: it cannot throw. -/
def isRelative (parse : String → Option ParsedURL) (isAbs : String → Bool)
    (uri : String) : Bool :=
  match parse uri with
  | none => !(isAbs uri)
  | some url =>
    if url.protocol ≠ "" ∧ url.protocol ≠ "file:" then false
    else decide (url.host = "") && !(isAbs uri)

/-- The spec's own characterisation of relativity, written from the spec's
words for the refinement theorem of C8: no scheme and no host, or scheme
`file` with no host, and not an absolute filesystem path. -/
def isRelativeSpec (parse : String → Option ParsedURL) (isAbs : String → Bool)
    (uri : String) : Bool :=
  let noScheme : Bool := match parse uri with
    | none => true
    | some u => decide (u.protocol = "")
  let noHost : Bool := match parse uri with
    | none => true
    | some u => decide (u.host = "")
  let fileScheme : Bool := match parse uri with
    | none => false
    | some u => decide (u.protocol = "file:")
  ((noScheme && noHost) || (fileScheme && noHost)) && !(isAbs uri)

/-- The headers attached to every probe request. -/
structure RequestHeaders where
  userAgent : String
  accept : String
  host : Option String
deriving DecidableEq

/-- The header set built by `createFetchWithRuleDefaults`, parametrised by the
platform's `URL.parse(uri)?.host` (`hostOf`).  An absent or falsy (empty)
host omits the `Host` header. -/
def createFetchWithRuleDefaults (ruleOptions : Options)
    (hostOf : String → Option String) (uri : String) : RequestHeaders :=
  { userAgent := ruleOptions.userAgent
    accept := "*/*"
    host := match hostOf uri with
      | some h => if h = "" then none else some h
      | none => none }

/-- Collapse a JavaScript-falsy string (absent or empty) to `none`. -/
def strFalsy : Option String → Option String
  | none => none
  | some s => if s = "" then none else some s

/-- An HTTP response as observed by the prober: status, status text, the two
headers it reads (`Location`, `Retry-After` in seconds) and the final `url`
property used for `redirectTo`. -/
structure Response where
  status : Nat
  statusText : String
  location : Option String
  retryAfter : Option Nat
  url : String
deriving DecidableEq

/-- The `ok` property of a response per the fetch standard: status in the inclusive range
200 to 299. -/
def Response.ok (r : Response) : Bool :=
  decide (200 ≤ r.status ∧ r.status ≤ 299)

/-- One HTTP request issued by the prober: target, method, redirect mode. -/
structure FetchRequest where
  uri : String
  method : String
  redirect : String
deriving DecidableEq

/-- The outcome of one `fetch` call: a response, or a thrown exception. -/
inductive FetchOutcome where
  | resp (r : Response)
  | err (msg : String)
deriving DecidableEq

/-- The return record of `isAliveURI` (`AliveFunctionReturn` in the source);
the optional fields default to their falsy interpretation when absent. -/
structure AliveFunctionReturn where
  ok : Bool
  message : String
  redirected : Bool := false
  redirectTo : Option String := none
deriving DecidableEq

/-- A probe's observable behaviour: its result, the HTTP requests it issued
in order, and the waits (in milliseconds) it performed in order. -/
structure ProbeTrace where
  result : AliveFunctionReturn
  requests : List FetchRequest
  waits : List Nat
deriving DecidableEq

/-- The environment one probe chain runs in: the platform URL accessors
(`URL.parse(uri)?.origin` and `URL.parse(uri)?.hash`), the orchestrator's
`resolvePath`, and the network — `fetchAt n req` is the outcome of the
`n`-th fetch issued in the chain, which is the request `req`. -/
structure ProbeEnv where
  originOf : String → Option String
  hashOf : String → Option String
  resolvePath : String → String → Option String
  fetchAt : Nat → FetchRequest → FetchOutcome

/-- The `isAliveURI` function of the source, as a pure trace-producing function.
`reqIdx` counts the fetches already issued in this probe chain.  The
`manual`-mode first fetch, the redirect branch (missing `Location`, falsy
origin, failed resolution, `follow`-mode second fetch), the HEAD to GET
upgrade, the backoff retry with its `Retry-After` and exponential caps, the
exhausted return and the exception catch with its HEAD to GET fallback all
mirror the source line by line. -/
def isAliveURI (ro : Options) (pe : ProbeEnv) (uri method : String)
    (maxRetryCount currentRetryCount reqIdx : Nat) : ProbeTrace :=
  let req : FetchRequest := { uri := uri, method := method, redirect := "manual" }
  match pe.fetchAt reqIdx req with
  | FetchOutcome.err msg =>
    if _h : method = "HEAD" ∧ currentRetryCount < maxRetryCount then
      let rest := isAliveURI ro pe uri "GET" maxRetryCount (currentRetryCount + 1) (reqIdx + 1)
      { result := rest.result, requests := req :: rest.requests, waits := rest.waits }
    else
      { result := { ok := false, message := msg }, requests := [req], waits := [] }
  | FetchOutcome.resp res =>
    let statusLine : String := toString res.status ++ " " ++ res.statusText
    let errorResult : AliveFunctionReturn :=
      { ok := false, redirected := true, redirectTo := none, message := statusLine }
    if isRedirect res.status then
      match res.location with
      | none => { result := errorResult, requests := [req], waits := [] }
      | some location =>
        match strFalsy (pe.originOf uri) with
        | none => { result := errorResult, requests := [req], waits := [] }
        | some base =>
          match strFalsy (pe.resolvePath location base) with
          | none => { result := errorResult, requests := [req], waits := [] }
          | some redirectedUrl =>
            let followReq : FetchRequest :=
              { uri := redirectedUrl, method := method, redirect := "follow" }
            match pe.fetchAt (reqIdx + 1) followReq with
            | FetchOutcome.err msg =>
              if _h : method = "HEAD" ∧ currentRetryCount < maxRetryCount then
                let rest := isAliveURI ro pe uri "GET" maxRetryCount
                  (currentRetryCount + 1) (reqIdx + 2)
                { result := rest.result, requests := req :: followReq :: rest.requests,
                  waits := rest.waits }
              else
                { result := { ok := false, message := msg },
                  requests := [req, followReq], waits := [] }
            | FetchOutcome.resp finalRes =>
              let redirectTo : String :=
                match strFalsy (pe.hashOf uri) with
                | some hash => finalRes.url ++ hash
                | none => finalRes.url
              { result := { ok := finalRes.ok, redirected := true,
                            redirectTo := some redirectTo, message := statusLine },
                requests := [req, followReq], waits := [] }
    else if _h : res.ok = false ∧ method = "HEAD" ∧ currentRetryCount < maxRetryCount then
      let rest := isAliveURI ro pe uri "GET" maxRetryCount (currentRetryCount + 1) (reqIdx + 1)
      { result := rest.result, requests := req :: rest.requests, waits := rest.waits }
    else if _h : currentRetryCount < maxRetryCount then
      let waitList : List Nat :=
        match res.retryAfter with
        | some s => if s * 1000 ≤ ro.maxRetryAfterTime * 1000 then [s * 1000] else []
        | none =>
          if currentRetryCount ^ 2 * 100 ≤ ro.maxRetryTime * 1000 then
            [currentRetryCount ^ 2 * 100]
          else []
      let rest := isAliveURI ro pe uri "GET" maxRetryCount (currentRetryCount + 1) (reqIdx + 1)
      { result := rest.result, requests := req :: rest.requests,
        waits := waitList ++ rest.waits }
    else
      { result := { ok := res.ok, message := statusLine }, requests := [req], waits := [] }
termination_by maxRetryCount - currentRetryCount
decreasing_by all_goals omega

/-- The first request of a probe of `uri` with `method`: `manual` redirect mode. -/
def manualReq (uri method : String) : FetchRequest :=
  { uri := uri, method := method, redirect := "manual" }

/-- Step lemma: a fetch exception with method `HEAD` and retries remaining
falls back to `GET` at the next attempt, issuing its request first. -/
theorem isAliveURI_err_retry (ro : Options) (pe : ProbeEnv) (uri : String)
    (m a idx : Nat) (msg : String)
    (hfetch : pe.fetchAt idx (manualReq uri "HEAD") = FetchOutcome.err msg)
    (hm : a < m) :
    isAliveURI ro pe uri "HEAD" m a idx =
      { result := (isAliveURI ro pe uri "GET" m (a + 1) (idx + 1)).result,
        requests := manualReq uri "HEAD" :: (isAliveURI ro pe uri "GET" m (a + 1) (idx + 1)).requests,
        waits := (isAliveURI ro pe uri "GET" m (a + 1) (idx + 1)).waits } := by
  rw [isAliveURI.eq_def]
  simp only [manualReq] at hfetch
  simp [manualReq, hfetch, hm]

/-- Step lemma: a fetch exception with no HEAD fallback available is terminal
with the exception text as message. -/
theorem isAliveURI_err_terminal (ro : Options) (pe : ProbeEnv) (uri method : String)
    (m a idx : Nat) (msg : String)
    (hfetch : pe.fetchAt idx (manualReq uri method) = FetchOutcome.err msg)
    (hno : ¬(method = "HEAD" ∧ a < m)) :
    isAliveURI ro pe uri method m a idx =
      { result := { ok := false, message := msg },
        requests := [manualReq uri method], waits := [] } := by
  rw [isAliveURI.eq_def]
  simp only [manualReq] at hfetch
  simp [manualReq, hfetch, hno]

/-- Step lemma: a redirect response with no `Location` header is a terminal
ambiguous-redirect error. -/
theorem isAliveURI_redirect_noLocation (ro : Options) (pe : ProbeEnv) (uri method : String)
    (m a idx : Nat) (res : Response)
    (hfetch : pe.fetchAt idx (manualReq uri method) = FetchOutcome.resp res)
    (hred : isRedirect res.status = true) (hloc : res.location = none) :
    isAliveURI ro pe uri method m a idx =
      { result := { ok := false, redirected := true, redirectTo := none,
                    message := toString res.status ++ " " ++ res.statusText },
        requests := [manualReq uri method], waits := [] } := by
  rw [isAliveURI.eq_def]
  simp only [manualReq] at hfetch
  simp [manualReq, hfetch, hred, hloc]

/-- Step lemma: a redirect response whose request URI has a falsy origin is a
terminal ambiguous-redirect error. -/
theorem isAliveURI_redirect_noBase (ro : Options) (pe : ProbeEnv) (uri method : String)
    (m a idx : Nat) (res : Response) (l : String)
    (hfetch : pe.fetchAt idx (manualReq uri method) = FetchOutcome.resp res)
    (hred : isRedirect res.status = true) (hloc : res.location = some l)
    (hbase : strFalsy (pe.originOf uri) = none) :
    isAliveURI ro pe uri method m a idx =
      { result := { ok := false, redirected := true, redirectTo := none,
                    message := toString res.status ++ " " ++ res.statusText },
        requests := [manualReq uri method], waits := [] } := by
  rw [isAliveURI.eq_def]
  simp only [manualReq] at hfetch
  simp [manualReq, hfetch, hred, hloc, hbase]

/-- Step lemma: a redirect response whose `Location` does not resolve against
the request's origin is a terminal ambiguous-redirect error. -/
theorem isAliveURI_redirect_noResolve (ro : Options) (pe : ProbeEnv) (uri method : String)
    (m a idx : Nat) (res : Response) (l b : String)
    (hfetch : pe.fetchAt idx (manualReq uri method) = FetchOutcome.resp res)
    (hred : isRedirect res.status = true) (hloc : res.location = some l)
    (hbase : strFalsy (pe.originOf uri) = some b)
    (hres : strFalsy (pe.resolvePath l b) = none) :
    isAliveURI ro pe uri method m a idx =
      { result := { ok := false, redirected := true, redirectTo := none,
                    message := toString res.status ++ " " ++ res.statusText },
        requests := [manualReq uri method], waits := [] } := by
  rw [isAliveURI.eq_def]
  simp only [manualReq] at hfetch
  simp [manualReq, hfetch, hred, hloc, hbase, hres]

/-- Step lemma: a resolved redirect issues one `follow`-mode request; when that
request returns a response, the probe is terminal with `ok` taken from the
final response and the first hop's status line as message. -/
theorem isAliveURI_redirect_follow (ro : Options) (pe : ProbeEnv) (uri method : String)
    (m a idx : Nat) (res finalRes : Response) (l b d : String)
    (hfetch : pe.fetchAt idx (manualReq uri method) = FetchOutcome.resp res)
    (hred : isRedirect res.status = true) (hloc : res.location = some l)
    (hbase : strFalsy (pe.originOf uri) = some b)
    (hres : strFalsy (pe.resolvePath l b) = some d)
    (hfollow : pe.fetchAt (idx + 1) { uri := d, method := method, redirect := "follow" } =
      FetchOutcome.resp finalRes) :
    isAliveURI ro pe uri method m a idx =
      { result := { ok := finalRes.ok, redirected := true,
                    redirectTo := some (match strFalsy (pe.hashOf uri) with
                      | some hash => finalRes.url ++ hash
                      | none => finalRes.url),
                    message := toString res.status ++ " " ++ res.statusText },
        requests := [manualReq uri method, { uri := d, method := method, redirect := "follow" }],
        waits := [] } := by
  rw [isAliveURI.eq_def]
  simp only [manualReq] at hfetch
  simp [manualReq, hfetch, hred, hloc, hbase, hres, hfollow]

/-- Step lemma: when the `follow`-mode request of a resolved redirect throws
and the method was `HEAD` with retries remaining, the catch block re-probes
the original URI with `GET` at the next attempt. -/
theorem isAliveURI_redirect_followErr_retry (ro : Options) (pe : ProbeEnv) (uri : String)
    (m a idx : Nat) (res : Response) (l b d msg : String)
    (hfetch : pe.fetchAt idx (manualReq uri "HEAD") = FetchOutcome.resp res)
    (hred : isRedirect res.status = true) (hloc : res.location = some l)
    (hbase : strFalsy (pe.originOf uri) = some b)
    (hres : strFalsy (pe.resolvePath l b) = some d)
    (hfollow : pe.fetchAt (idx + 1) { uri := d, method := "HEAD", redirect := "follow" } =
      FetchOutcome.err msg)
    (hm : a < m) :
    isAliveURI ro pe uri "HEAD" m a idx =
      { result := (isAliveURI ro pe uri "GET" m (a + 1) (idx + 2)).result,
        requests := manualReq uri "HEAD" ::
          { uri := d, method := "HEAD", redirect := "follow" } ::
          (isAliveURI ro pe uri "GET" m (a + 1) (idx + 2)).requests,
        waits := (isAliveURI ro pe uri "GET" m (a + 1) (idx + 2)).waits } := by
  rw [isAliveURI.eq_def]
  simp only [manualReq] at hfetch
  simp [manualReq, hfetch, hred, hloc, hbase, hres, hfollow, hm]

/-- Step lemma: a non-redirect non-ok response to a `HEAD` probe with retries
remaining upgrades to `GET` immediately, adding no wait. -/
theorem isAliveURI_headUpgrade (ro : Options) (pe : ProbeEnv) (uri : String)
    (m a idx : Nat) (res : Response)
    (hfetch : pe.fetchAt idx (manualReq uri "HEAD") = FetchOutcome.resp res)
    (hred : isRedirect res.status = false) (hok : res.ok = false) (hm : a < m) :
    isAliveURI ro pe uri "HEAD" m a idx =
      { result := (isAliveURI ro pe uri "GET" m (a + 1) (idx + 1)).result,
        requests := manualReq uri "HEAD" :: (isAliveURI ro pe uri "GET" m (a + 1) (idx + 1)).requests,
        waits := (isAliveURI ro pe uri "GET" m (a + 1) (idx + 1)).waits } := by
  rw [isAliveURI.eq_def]
  simp only [manualReq] at hfetch
  simp [manualReq, hfetch, hred, hok, hm]

/-- Step lemma: the backoff retry branch.  A non-redirect response that does
not take the HEAD upgrade, with retries remaining, waits per `Retry-After`
(capped by `maxRetryAfterTime`) or exponentially (capped by `maxRetryTime`)
and re-probes with `GET` at the next attempt. -/
theorem isAliveURI_backoff (ro : Options) (pe : ProbeEnv) (uri method : String)
    (m a idx : Nat) (res : Response)
    (hfetch : pe.fetchAt idx (manualReq uri method) = FetchOutcome.resp res)
    (hred : isRedirect res.status = false)
    (hnu : ¬(res.ok = false ∧ method = "HEAD" ∧ a < m)) (hm : a < m) :
    isAliveURI ro pe uri method m a idx =
      { result := (isAliveURI ro pe uri "GET" m (a + 1) (idx + 1)).result,
        requests := manualReq uri method :: (isAliveURI ro pe uri "GET" m (a + 1) (idx + 1)).requests,
        waits := (match res.retryAfter with
          | some s => if s * 1000 ≤ ro.maxRetryAfterTime * 1000 then [s * 1000] else []
          | none => if a ^ 2 * 100 ≤ ro.maxRetryTime * 1000 then [a ^ 2 * 100] else []) ++
          (isAliveURI ro pe uri "GET" m (a + 1) (idx + 1)).waits } := by
  rw [isAliveURI.eq_def]
  simp only [manualReq] at hfetch
  have hnu2 : ¬(res.ok = false ∧ method = "HEAD") := fun h2 => hnu ⟨h2.1, h2.2, hm⟩
  simp [manualReq, hfetch, hred, hnu2, hm]

/-- Step lemma: once the attempt count has reached the retry budget, a
non-redirect response is terminal: `ok` from the response, the status line as
message, and no further request or wait. -/
theorem isAliveURI_exhausted (ro : Options) (pe : ProbeEnv) (uri method : String)
    (m a idx : Nat) (res : Response)
    (hfetch : pe.fetchAt idx (manualReq uri method) = FetchOutcome.resp res)
    (hred : isRedirect res.status = false) (hm : m ≤ a) :
    isAliveURI ro pe uri method m a idx =
      { result := { ok := res.ok, message := toString res.status ++ " " ++ res.statusText },
        requests := [manualReq uri method], waits := [] } := by
  have hna : ¬ a < m := Nat.not_lt.mpr hm
  rw [isAliveURI.eq_def]
  simp only [manualReq] at hfetch
  simp [manualReq, hfetch, hred, hna]

/-- A response whose status is `404 Not Found`, with no extra headers. -/
def resp404 : Response :=
  { status := 404, statusText := "Not Found", location := none, retryAfter := none, url := "" }

/-- A network that answers `404 Not Found` to every request, in an environment
whose URL accessors and resolver are inert. -/
def peAll404 : ProbeEnv :=
  { originOf := fun _ => none
    hashOf := fun _ => none
    resolvePath := fun _ _ => none
    fetchAt := fun _ _ => FetchOutcome.resp resp404 }

/-- C1: probing a URI that answers `404 Not Found` to every request with
method `HEAD` and `maxRetryCount = 3` returns `{ok := false, message :=
"404 Not Found"}` after exactly 4 requests, `HEAD` then three `GET`s; and in
general a non-redirect response once the attempt count has reached the retry
budget is returned as `{ok := response.ok, message := status line}` with no
further request. -/
theorem c1_retry_exhaustion_404 :
    (∀ (ro : Options) (pe : ProbeEnv) (uri : String) (idx : Nat),
      (∀ n req, ∃ r, pe.fetchAt n req = FetchOutcome.resp r ∧
        r.status = 404 ∧ r.statusText = "Not Found") →
      (isAliveURI ro pe uri "HEAD" 3 0 idx).result =
        { ok := false, message := "404 Not Found" } ∧
      (isAliveURI ro pe uri "HEAD" 3 0 idx).requests.map FetchRequest.method =
        ["HEAD", "GET", "GET", "GET"]) ∧
    (∀ (ro : Options) (pe : ProbeEnv) (uri method : String) (m a idx : Nat) (res : Response),
      m ≤ a →
      pe.fetchAt idx (manualReq uri method) = FetchOutcome.resp res →
      isRedirect res.status = false →
      isAliveURI ro pe uri method m a idx =
        { result := { ok := res.ok, message := toString res.status ++ " " ++ res.statusText },
          requests := [manualReq uri method], waits := [] }) := by
  constructor
  · intro ro pe uri idx h404
    obtain ⟨r0, hf0, hs0, ht0⟩ := h404 idx (manualReq uri "HEAD")
    obtain ⟨r1, hf1, hs1, ht1⟩ := h404 (idx + 1) (manualReq uri "GET")
    obtain ⟨r2, hf2, hs2, ht2⟩ := h404 (idx + 1 + 1) (manualReq uri "GET")
    obtain ⟨r3, hf3, hs3, ht3⟩ := h404 (idx + 1 + 1 + 1) (manualReq uri "GET")
    have hred0 : isRedirect r0.status = false := by rw [hs0]; rfl
    have hok0 : r0.ok = false := by simp [Response.ok, hs0]
    have e0 := isAliveURI_headUpgrade ro pe uri 3 0 idx r0 hf0 hred0 hok0 (by omega)
    have hred1 : isRedirect r1.status = false := by rw [hs1]; rfl
    have hnu1 : ¬(r1.ok = false ∧ "GET" = "HEAD" ∧ 0 + 1 < 3) := by simp
    have e1 := isAliveURI_backoff ro pe uri "GET" 3 (0 + 1) (idx + 1) r1 hf1 hred1 hnu1 (by omega)
    have hred2 : isRedirect r2.status = false := by rw [hs2]; rfl
    have hnu2 : ¬(r2.ok = false ∧ "GET" = "HEAD" ∧ 0 + 1 + 1 < 3) := by simp
    have e2 := isAliveURI_backoff ro pe uri "GET" 3 (0 + 1 + 1) (idx + 1 + 1) r2 hf2 hred2 hnu2
      (by omega)
    have hred3 : isRedirect r3.status = false := by rw [hs3]; rfl
    have e3 := isAliveURI_exhausted ro pe uri "GET" 3 (0 + 1 + 1 + 1) (idx + 1 + 1 + 1) r3 hf3
      hred3 (by omega)
    rw [e0, e1, e2, e3]
    have hok3 : r3.ok = false := by simp [Response.ok, hs3]
    refine ⟨?_, by simp [manualReq]⟩
    simp only [hok3, hs3, ht3]
    rfl
  · intro ro pe uri method m a idx res hm hfetch hred
    exact isAliveURI_exhausted ro pe uri method m a idx res hfetch hred hm

/-- Witness for C1 at the concrete all-404 environment. -/
theorem c1_retry_exhaustion_404_witness :
    ((isAliveURI DEFAULT_OPTIONS peAll404 "https://example.com/x" "HEAD" 3 0 0).result =
        { ok := false, message := "404 Not Found" } ∧
      (isAliveURI DEFAULT_OPTIONS peAll404 "https://example.com/x" "HEAD" 3 0 0).requests.map
        FetchRequest.method = ["HEAD", "GET", "GET", "GET"]) ∧
    isAliveURI DEFAULT_OPTIONS peAll404 "https://example.com/x" "GET" 3 3 3 =
      { result := { ok := resp404.ok,
                    message := toString resp404.status ++ " " ++ resp404.statusText },
        requests := [manualReq "https://example.com/x" "GET"], waits := [] } :=
  ⟨c1_retry_exhaustion_404.1 DEFAULT_OPTIONS peAll404 "https://example.com/x" 0
      (fun _ _ => ⟨resp404, rfl, rfl, rfl⟩),
    c1_retry_exhaustion_404.2 DEFAULT_OPTIONS peAll404 "https://example.com/x" "GET" 3 3 3
      resp404 (by omega) rfl rfl⟩

/-- C3: a redirect-status first response with missing `Location`, falsy
origin, or unresolvable destination is the terminal error
`{ok := false, redirected := true, redirectTo := none, message := status
line}` with no retry; otherwise exactly one `follow`-mode request is issued
to the resolved destination and `ok` comes from that final response while
`message` reports the first hop's status line. -/
theorem c3_redirect_resolution (ro : Options) (pe : ProbeEnv) (uri method : String)
    (m a idx : Nat) (res : Response)
    (hfetch : pe.fetchAt idx (manualReq uri method) = FetchOutcome.resp res)
    (hred : isRedirect res.status = true) :
    (res.location = none →
      isAliveURI ro pe uri method m a idx =
        { result := { ok := false, redirected := true, redirectTo := none,
                      message := toString res.status ++ " " ++ res.statusText },
          requests := [manualReq uri method], waits := [] }) ∧
    (∀ l, res.location = some l → strFalsy (pe.originOf uri) = none →
      isAliveURI ro pe uri method m a idx =
        { result := { ok := false, redirected := true, redirectTo := none,
                      message := toString res.status ++ " " ++ res.statusText },
          requests := [manualReq uri method], waits := [] }) ∧
    (∀ l b, res.location = some l → strFalsy (pe.originOf uri) = some b →
      strFalsy (pe.resolvePath l b) = none →
      isAliveURI ro pe uri method m a idx =
        { result := { ok := false, redirected := true, redirectTo := none,
                      message := toString res.status ++ " " ++ res.statusText },
          requests := [manualReq uri method], waits := [] }) ∧
    (∀ l b d finalRes, res.location = some l → strFalsy (pe.originOf uri) = some b →
      strFalsy (pe.resolvePath l b) = some d →
      pe.fetchAt (idx + 1) { uri := d, method := method, redirect := "follow" } =
        FetchOutcome.resp finalRes →
      isAliveURI ro pe uri method m a idx =
        { result := { ok := finalRes.ok, redirected := true,
                      redirectTo := some (match strFalsy (pe.hashOf uri) with
                        | some h1 => finalRes.url ++ h1
                        | none => finalRes.url),
                      message := toString res.status ++ " " ++ res.statusText },
          requests := [manualReq uri method,
            { uri := d, method := method, redirect := "follow" }],
          waits := [] }) := by
  refine ⟨fun hloc => ?_, fun l hloc hbase => ?_, fun l b hloc hbase hres => ?_,
    fun l b d finalRes hloc hbase hres hfollow => ?_⟩
  · exact isAliveURI_redirect_noLocation ro pe uri method m a idx res hfetch hred hloc
  · exact isAliveURI_redirect_noBase ro pe uri method m a idx res l hfetch hred hloc hbase
  · exact isAliveURI_redirect_noResolve ro pe uri method m a idx res l b hfetch hred hloc
      hbase hres
  · exact isAliveURI_redirect_follow ro pe uri method m a idx res finalRes l b d hfetch hred
      hloc hbase hres hfollow

/-- A probe environment answering `301` with a `Location` header and `200 OK`
to the `follow`-mode request. -/
def peRedirect301 : ProbeEnv :=
  { originOf := fun _ => some "https://e.com"
    hashOf := fun _ => none
    resolvePath := fun l b => some (b ++ l)
    fetchAt := fun _ req =>
      if req.redirect = "follow" then
        FetchOutcome.resp
          { status := 200, statusText := "OK", location := none, retryAfter := none,
            url := "https://e.com/x" }
      else
        FetchOutcome.resp
          { status := 301, statusText := "Moved Permanently", location := some "/x",
            retryAfter := none, url := "" } }

/-- Witness for C3 at a concrete resolvable `301` followed by `200`. -/
theorem c3_redirect_resolution_witness :
    isAliveURI DEFAULT_OPTIONS peRedirect301 "https://e.com/a" "HEAD" 3 0 0 =
      { result := { ok := true, redirected := true, redirectTo := some "https://e.com/x",
                    message := "301 Moved Permanently" },
        requests := [manualReq "https://e.com/a" "HEAD",
          { uri := "https://e.com/x", method := "HEAD", redirect := "follow" }],
        waits := [] } := by
  have h := (c3_redirect_resolution DEFAULT_OPTIONS peRedirect301 "https://e.com/a" "HEAD"
      3 0 0
      { status := 301, statusText := "Moved Permanently", location := some "/x",
        retryAfter := none, url := "" }
      rfl rfl).2.2.2 "/x" "https://e.com" "https://e.com/x"
      { status := 200, statusText := "OK", location := none, retryAfter := none,
        url := "https://e.com/x" }
      rfl (by simp [peRedirect301, strFalsy]) (by simp [peRedirect301, strFalsy]) rfl
  rw [h]
  rfl

/-- C4: a `HEAD` probe answered by a non-redirect, non-ok response with the
attempt count below the retry budget immediately re-probes the same URI with
`GET` at the next attempt, executing no Retry-After or backoff wait in that
transition. -/
theorem c4_head_to_get_upgrade (ro : Options) (pe : ProbeEnv) (uri : String)
    (m a idx : Nat) (res : Response)
    (hfetch : pe.fetchAt idx (manualReq uri "HEAD") = FetchOutcome.resp res)
    (hred : isRedirect res.status = false) (hok : res.ok = false) (hm : a < m) :
    isAliveURI ro pe uri "HEAD" m a idx =
      { result := (isAliveURI ro pe uri "GET" m (a + 1) (idx + 1)).result,
        requests := manualReq uri "HEAD" ::
          (isAliveURI ro pe uri "GET" m (a + 1) (idx + 1)).requests,
        waits := (isAliveURI ro pe uri "GET" m (a + 1) (idx + 1)).waits } :=
  isAliveURI_headUpgrade ro pe uri m a idx res hfetch hred hok hm

/-- Witness for C4 at the concrete all-404 environment. -/
theorem c4_head_to_get_upgrade_witness :
    isAliveURI DEFAULT_OPTIONS peAll404 "https://example.com/x" "HEAD" 3 0 0 =
      { result := (isAliveURI DEFAULT_OPTIONS peAll404 "https://example.com/x" "GET" 3 1 1).result,
        requests := manualReq "https://example.com/x" "HEAD" ::
          (isAliveURI DEFAULT_OPTIONS peAll404 "https://example.com/x" "GET" 3 1 1).requests,
        waits := (isAliveURI DEFAULT_OPTIONS peAll404 "https://example.com/x" "GET" 3 1 1).waits } :=
  c4_head_to_get_upgrade DEFAULT_OPTIONS peAll404 "https://example.com/x" 3 0 0 resp404
    rfl rfl (by simp [Response.ok, resp404]) (by omega)

/-- C5: in the backoff branch at attempt `a`, with a `Retry-After` header of
`s` seconds the prober waits `s * 1000` ms exactly when that does not exceed
`maxRetryAfterTime * 1000` ms and otherwise waits nothing; with no such
header it waits `a ^ 2 * 100` ms exactly when that does not exceed
`maxRetryTime * 1000` ms and otherwise waits nothing; in all cases the retry
is issued with method `GET` at attempt `a + 1`. -/
theorem c5_backoff_wait_policy (ro : Options) (pe : ProbeEnv) (uri method : String)
    (m a idx : Nat) (res : Response)
    (hfetch : pe.fetchAt idx (manualReq uri method) = FetchOutcome.resp res)
    (hred : isRedirect res.status = false)
    (hnu : ¬(res.ok = false ∧ method = "HEAD" ∧ a < m)) (hm : a < m) :
    (∀ s, res.retryAfter = some s →
      (s * 1000 ≤ ro.maxRetryAfterTime * 1000 →
        (isAliveURI ro pe uri method m a idx).waits =
          s * 1000 :: (isAliveURI ro pe uri "GET" m (a + 1) (idx + 1)).waits) ∧
      (¬ s * 1000 ≤ ro.maxRetryAfterTime * 1000 →
        (isAliveURI ro pe uri method m a idx).waits =
          (isAliveURI ro pe uri "GET" m (a + 1) (idx + 1)).waits)) ∧
    (res.retryAfter = none →
      (a ^ 2 * 100 ≤ ro.maxRetryTime * 1000 →
        (isAliveURI ro pe uri method m a idx).waits =
          a ^ 2 * 100 :: (isAliveURI ro pe uri "GET" m (a + 1) (idx + 1)).waits) ∧
      (¬ a ^ 2 * 100 ≤ ro.maxRetryTime * 1000 →
        (isAliveURI ro pe uri method m a idx).waits =
          (isAliveURI ro pe uri "GET" m (a + 1) (idx + 1)).waits)) ∧
    (isAliveURI ro pe uri method m a idx).result =
      (isAliveURI ro pe uri "GET" m (a + 1) (idx + 1)).result ∧
    (isAliveURI ro pe uri method m a idx).requests =
      manualReq uri method :: (isAliveURI ro pe uri "GET" m (a + 1) (idx + 1)).requests := by
  have key := isAliveURI_backoff ro pe uri method m a idx res hfetch hred hnu hm
  refine ⟨fun s hs => ⟨fun hle => ?_, fun hle => ?_⟩,
    fun hs => ⟨fun hle => ?_, fun hle => ?_⟩, ?_, ?_⟩ <;>
    rw [key] <;> simp [hs, hle]

/-- Witness for C5 at the concrete all-404 environment (no `Retry-After`
header, `0 ^ 2 * 100 = 0` ms wait within the cap). -/
theorem c5_backoff_wait_policy_witness :
    (isAliveURI DEFAULT_OPTIONS peAll404 "https://example.com/x" "GET" 3 0 0).waits =
      0 ^ 2 * 100 :: (isAliveURI DEFAULT_OPTIONS peAll404 "https://example.com/x" "GET" 3 1 1).waits :=
  (((c5_backoff_wait_policy DEFAULT_OPTIONS peAll404 "https://example.com/x" "GET" 3 0 0 resp404
      rfl rfl (by simp) (by omega)).2.1 rfl).1 (by simp [DEFAULT_OPTIONS]))

/-- Helper: against a network that always answers status 200, the prober
keeps re-probing until the retry budget is exhausted and then returns ok. -/
theorem isAliveURI_all200 (ro : Options) (pe : ProbeEnv) (uri : String)
    (h200 : ∀ n req, ∃ r, pe.fetchAt n req = FetchOutcome.resp r ∧ r.status = 200) :
    ∀ (k a idx : Nat) (method : String),
      (isAliveURI ro pe uri method (a + k) a idx).result.ok = true ∧
      (isAliveURI ro pe uri method (a + k) a idx).requests.length = k + 1 := by
  intro k
  induction k with
  | zero =>
    intro a idx method
    obtain ⟨r, hf, hs⟩ := h200 idx (manualReq uri method)
    have hred : isRedirect r.status = false := by rw [hs]; rfl
    have e := isAliveURI_exhausted ro pe uri method (a + 0) a idx r hf hred (by omega)
    rw [e]
    simp [Response.ok, hs]
  | succ n ih =>
    intro a idx method
    obtain ⟨r, hf, hs⟩ := h200 idx (manualReq uri method)
    have hred : isRedirect r.status = false := by rw [hs]; rfl
    have hok : r.ok = true := by simp [Response.ok, hs]
    have hnu : ¬(r.ok = false ∧ method = "HEAD" ∧ a < a + (n + 1)) := by simp [hok]
    have e := isAliveURI_backoff ro pe uri method (a + (n + 1)) a idx r hf hred hnu (by omega)
    have hm2 : a + (n + 1) = (a + 1) + n := by omega
    rw [e, hm2]
    have ih2 := ih (a + 1) (idx + 1) "GET"
    simp [ih2.1, ih2.2]

/-- C10 (implicit): the retry branch is entered regardless of `ok` — a
non-redirect ok response below the retry budget still triggers a `GET`
re-probe at the next attempt, so a URI that always answers status 200 incurs
exactly `maxRetryCount + 1` requests before the prober returns ok. -/
theorem c10_retry_even_when_ok :
    (∀ (ro : Options) (pe : ProbeEnv) (uri method : String) (m a idx : Nat) (res : Response),
      pe.fetchAt idx (manualReq uri method) = FetchOutcome.resp res →
      isRedirect res.status = false → res.ok = true → a < m →
      isAliveURI ro pe uri method m a idx =
        { result := (isAliveURI ro pe uri "GET" m (a + 1) (idx + 1)).result,
          requests := manualReq uri method ::
            (isAliveURI ro pe uri "GET" m (a + 1) (idx + 1)).requests,
          waits := (match res.retryAfter with
            | some s => if s * 1000 ≤ ro.maxRetryAfterTime * 1000 then [s * 1000] else []
            | none => if a ^ 2 * 100 ≤ ro.maxRetryTime * 1000 then [a ^ 2 * 100] else []) ++
            (isAliveURI ro pe uri "GET" m (a + 1) (idx + 1)).waits }) ∧
    (∀ (ro : Options) (pe : ProbeEnv) (uri : String) (m idx : Nat),
      (∀ n req, ∃ r, pe.fetchAt n req = FetchOutcome.resp r ∧ r.status = 200) →
      (isAliveURI ro pe uri "HEAD" m 0 idx).result.ok = true ∧
      (isAliveURI ro pe uri "HEAD" m 0 idx).requests.length = m + 1) := by
  constructor
  · intro ro pe uri method m a idx res hf hred hok hm
    exact isAliveURI_backoff ro pe uri method m a idx res hf hred (by simp [hok]) hm
  · intro ro pe uri m idx h200
    have h := isAliveURI_all200 ro pe uri h200 m 0 idx "HEAD"
    simpa using h

/-- A network that answers `200 OK` to every request. -/
def peAll200 : ProbeEnv :=
  { originOf := fun _ => none
    hashOf := fun _ => none
    resolvePath := fun _ _ => none
    fetchAt := fun _ _ => FetchOutcome.resp
      { status := 200, statusText := "OK", location := none, retryAfter := none, url := "" } }

/-- Witness for C10 at the concrete all-200 environment. -/
theorem c10_retry_even_when_ok_witness :
    (isAliveURI DEFAULT_OPTIONS peAll200 "https://example.com/x" "HEAD" 3 0 0).result.ok = true ∧
    (isAliveURI DEFAULT_OPTIONS peAll200 "https://example.com/x" "HEAD" 3 0 0).requests.length =
      3 + 1 :=
  c10_retry_even_when_ok.2 DEFAULT_OPTIONS peAll200 "https://example.com/x" 3 0
    (fun _ _ => ⟨_, rfl, rfl⟩)

/-- A network answering `301` with a resolvable `Location`, whose follow-mode
request throws, and which answers `500` to every later request. -/
def peRedirectThenErr : ProbeEnv :=
  { originOf := fun _ => some "https://e.com"
    hashOf := fun _ => none
    resolvePath := fun l b => some (b ++ l)
    fetchAt := fun n req =>
      if req.redirect = "follow" then FetchOutcome.err "socket hang up"
      else if n = 0 then
        FetchOutcome.resp
          { status := 301, statusText := "Moved Permanently", location := some "/x",
            retryAfter := none, url := "" }
      else
        FetchOutcome.resp
          { status := 500, statusText := "Internal Server Error", location := none,
            retryAfter := none, url := "" } }

/-- Counterexample to C6: a probe whose first response has a redirect status
(here `301`) can still enter the backoff/retry path — when the follow-mode
request throws, the catch block re-probes with `GET` and the later attempts
execute backoff waits (here 100 ms and 400 ms over five requests). -/
theorem c6_redirect_terminal_counterexample :
    (∃ r, peRedirectThenErr.fetchAt 0 (manualReq "https://e.com/a" "HEAD") =
      FetchOutcome.resp r ∧ isRedirect r.status = true) ∧
    (isAliveURI DEFAULT_OPTIONS peRedirectThenErr "https://e.com/a" "HEAD" 3 0 0).waits =
      [100, 400] ∧
    (isAliveURI DEFAULT_OPTIONS peRedirectThenErr "https://e.com/a" "HEAD" 3 0 0).requests.length
      = 5 := by
  refine ⟨⟨_, rfl, rfl⟩, ?_⟩
  have e0 := isAliveURI_redirect_followErr_retry DEFAULT_OPTIONS peRedirectThenErr
    "https://e.com/a" 3 0 0
    { status := 301, statusText := "Moved Permanently", location := some "/x",
      retryAfter := none, url := "" }
    "/x" "https://e.com" ("https://e.com" ++ "/x") "socket hang up"
    rfl rfl rfl rfl rfl rfl (by omega)
  have e1 := isAliveURI_backoff DEFAULT_OPTIONS peRedirectThenErr "https://e.com/a" "GET" 3
    (0 + 1) (0 + 2)
    { status := 500, statusText := "Internal Server Error", location := none,
      retryAfter := none, url := "" }
    rfl rfl (by simp) (by omega)
  have e2 := isAliveURI_backoff DEFAULT_OPTIONS peRedirectThenErr "https://e.com/a" "GET" 3
    (0 + 1 + 1) (0 + 2 + 1)
    { status := 500, statusText := "Internal Server Error", location := none,
      retryAfter := none, url := "" }
    rfl rfl (by simp) (by omega)
  have e3 := isAliveURI_exhausted DEFAULT_OPTIONS peRedirectThenErr "https://e.com/a" "GET" 3
    (0 + 1 + 1 + 1) (0 + 2 + 1 + 1)
    { status := 500, statusText := "Internal Server Error", location := none,
      retryAfter := none, url := "" }
    rfl rfl (by omega)
  rw [e0, e1, e2, e3]
  simp [DEFAULT_OPTIONS]

/-- C6 amended: a probe whose first response has a redirect status is
terminal after redirect resolution — no backoff wait and at most two
requests — provided the follow-mode request (if issued) returns a response
rather than throwing; a thrown follow request instead takes the transport
HEAD-to-GET fallback, which can later enter the backoff path. -/
theorem c6_redirect_terminal_amended (ro : Options) (pe : ProbeEnv) (uri method : String)
    (m a idx : Nat) (res : Response)
    (hfetch : pe.fetchAt idx (manualReq uri method) = FetchOutcome.resp res)
    (hred : isRedirect res.status = true)
    (hfollow : ∀ req2 msg, pe.fetchAt (idx + 1) req2 ≠ FetchOutcome.err msg) :
    (isAliveURI ro pe uri method m a idx).waits = [] ∧
    (isAliveURI ro pe uri method m a idx).requests.length ≤ 2 := by
  cases hloc : res.location with
  | none =>
    rw [isAliveURI_redirect_noLocation ro pe uri method m a idx res hfetch hred hloc]
    simp
  | some l =>
    cases hbase : strFalsy (pe.originOf uri) with
    | none =>
      rw [isAliveURI_redirect_noBase ro pe uri method m a idx res l hfetch hred hloc hbase]
      simp
    | some b =>
      cases hres : strFalsy (pe.resolvePath l b) with
      | none =>
        rw [isAliveURI_redirect_noResolve ro pe uri method m a idx res l b hfetch hred hloc
          hbase hres]
        simp
      | some d =>
        cases hf2 : pe.fetchAt (idx + 1) { uri := d, method := method, redirect := "follow" } with
        | err msg => exact absurd hf2 (hfollow _ msg)
        | resp finalRes =>
          rw [isAliveURI_redirect_follow ro pe uri method m a idx res finalRes l b d hfetch
            hred hloc hbase hres hf2]
          simp

/-- Witness for C6 amended at the concrete `301` then `200` environment. -/
theorem c6_redirect_terminal_amended_witness :
    (isAliveURI DEFAULT_OPTIONS peRedirect301 "https://e.com/a" "HEAD" 3 0 0).waits = [] ∧
    (isAliveURI DEFAULT_OPTIONS peRedirect301 "https://e.com/a" "HEAD" 3 0 0).requests.length
      ≤ 2 :=
  c6_redirect_terminal_amended DEFAULT_OPTIONS peRedirect301 "https://e.com/a" "HEAD" 3 0 0
    { status := 301, statusText := "Moved Permanently", location := some "/x",
      retryAfter := none, url := "" }
    rfl rfl
    (by
      intro req2 msg h
      by_cases hc : req2.redirect = "follow" <;> simp [peRedirect301, hc] at h)

/-- A diagnostic the orchestrator's `lint` can report for a probed URI. -/
inductive LintReport where
  | dead (message : String)
  | redirectFix (message : String) (fix : Option String)
deriving DecidableEq

/-- The outcome-interpretation tail of `lint`: suppress any redirected result
when `ignoreRedirects` is set; report a dead-link diagnostic for a non-ok
result; report a redirect diagnostic (whose fix is the `redirectTo`
replacement when present) for an ok redirected result. -/
def interpretOutcome (ro : Options) (uri : String) (result : AliveFunctionReturn) :
    Option LintReport :=
  if result.redirected ∧ ro.ignoreRedirects then none
  else if result.ok = false then
    some (LintReport.dead (uri ++ " is dead. (" ++ result.message ++ ")"))
  else if result.redirected then
    some (LintReport.redirectFix
      (uri ++ " is redirected to " ++
        (match result.redirectTo with
          | some s => s
          | none => "null") ++ ". (" ++ result.message ++ ")")
      result.redirectTo)
  else none

/-- A network answering `301` with no `Location` header to every request. -/
def peRedirectNoLocation : ProbeEnv :=
  { originOf := fun _ => none
    hashOf := fun _ => none
    resolvePath := fun _ _ => none
    fetchAt := fun _ _ => FetchOutcome.resp
      { status := 301, statusText := "Moved Permanently", location := none,
        retryAfter := none, url := "" } }

/-- Counterexample to C7: with `ignoreRedirects := true` the ambiguous
redirect outcome (`ok := false`, `redirected := true`, missing `Location`)
is silently suppressed — `lint` reports nothing, so the outcome is not
reported as dead for every configuration. -/
theorem c7_ambiguous_redirect_counterexample :
    (isAliveURI { DEFAULT_OPTIONS with ignoreRedirects := true } peRedirectNoLocation
        "https://e.com/a" "HEAD" 3 0 0).result.ok = false ∧
    (isAliveURI { DEFAULT_OPTIONS with ignoreRedirects := true } peRedirectNoLocation
        "https://e.com/a" "HEAD" 3 0 0).result.redirected = true ∧
    interpretOutcome { DEFAULT_OPTIONS with ignoreRedirects := true } "https://e.com/a"
      (isAliveURI { DEFAULT_OPTIONS with ignoreRedirects := true } peRedirectNoLocation
        "https://e.com/a" "HEAD" 3 0 0).result = none := by
  have e := isAliveURI_redirect_noLocation { DEFAULT_OPTIONS with ignoreRedirects := true }
    peRedirectNoLocation "https://e.com/a" "HEAD" 3 0 0
    { status := 301, statusText := "Moved Permanently", location := none,
      retryAfter := none, url := "" }
    rfl rfl rfl
  rw [e]
  exact ⟨rfl, rfl, rfl⟩

/-- C7 amended: for every configuration with `ignoreRedirects = false`, an
ambiguous redirect outcome (redirect status with missing or unresolvable
`Location`) is reported as a dead-link diagnostic, never silently ignored. -/
theorem c7_ambiguous_redirect_amended (ro : Options) (pe : ProbeEnv) (uri method : String)
    (m a idx : Nat) (res : Response)
    (hir : ro.ignoreRedirects = false)
    (hfetch : pe.fetchAt idx (manualReq uri method) = FetchOutcome.resp res)
    (hred : isRedirect res.status = true)
    (hcase : res.location = none ∨ strFalsy (pe.originOf uri) = none ∨
      (∃ l b, res.location = some l ∧ strFalsy (pe.originOf uri) = some b ∧
        strFalsy (pe.resolvePath l b) = none)) :
    interpretOutcome ro uri (isAliveURI ro pe uri method m a idx).result =
      some (LintReport.dead (uri ++ " is dead. (" ++
        (toString res.status ++ " " ++ res.statusText) ++ ")")) := by
  have herr : (isAliveURI ro pe uri method m a idx).result =
      { ok := false, redirected := true, redirectTo := none,
        message := toString res.status ++ " " ++ res.statusText } := by
    rcases hcase with hloc | hbase | ⟨l, b, hloc, hbase, hres⟩
    · rw [isAliveURI_redirect_noLocation ro pe uri method m a idx res hfetch hred hloc]
    · cases hloc : res.location with
      | none => rw [isAliveURI_redirect_noLocation ro pe uri method m a idx res hfetch hred hloc]
      | some l =>
        rw [isAliveURI_redirect_noBase ro pe uri method m a idx res l hfetch hred hloc hbase]
    · rw [isAliveURI_redirect_noResolve ro pe uri method m a idx res l b hfetch hred hloc
        hbase hres]
  rw [herr]
  simp [interpretOutcome, hir]

/-- Witness for C7 amended at the concrete no-`Location` `301` environment. -/
theorem c7_ambiguous_redirect_amended_witness :
    interpretOutcome DEFAULT_OPTIONS "https://e.com/a"
      (isAliveURI DEFAULT_OPTIONS peRedirectNoLocation "https://e.com/a" "HEAD" 3 0 0).result =
      some (LintReport.dead ("https://e.com/a" ++ " is dead. (" ++
        (toString (301 : Nat) ++ " " ++ "Moved Permanently") ++ ")")) :=
  c7_ambiguous_redirect_amended DEFAULT_OPTIONS peRedirectNoLocation "https://e.com/a" "HEAD"
    3 0 0
    { status := 301, statusText := "Moved Permanently", location := none,
      retryAfter := none, url := "" }
    rfl rfl rfl (Or.inl rfl)

/-- C8: `isRelative` is total by construction (a Lean function into `Bool`
cannot throw) and returns `true` exactly per the spec's characterisation —
no scheme and no host, or scheme `file` with no host, and not an absolute
filesystem path; in particular a URI whose parse carries a non-file scheme
(mailto, ftp, ws style) is never relative. -/
theorem c8_isRelative_characterisation :
    ∀ (parse : String → Option ParsedURL) (isAbs : String → Bool) (uri : String),
      isRelative parse isAbs uri = isRelativeSpec parse isAbs uri ∧
      (∀ u, parse uri = some u → u.protocol ≠ "" → u.protocol ≠ "file:" →
        isRelative parse isAbs uri = false) := by
  intro parse isAbs uri
  constructor
  · cases h : parse uri with
    | none => simp [isRelative, isRelativeSpec, h]
    | some u =>
      by_cases hp : u.protocol = ""
      · simp [isRelative, isRelativeSpec, h, hp]
      · by_cases hf : u.protocol = "file:"
        · simp [isRelative, isRelativeSpec, h, hp, hf]
        · simp [isRelative, isRelativeSpec, h, hp, hf]
  · intro u hu hp hf
    simp [isRelative, hu, hp, hf]

/-- Witness for C8: a `mailto:` parse (scheme present, no host) is not
relative, and the code/spec characterisations agree at that input. -/
theorem c8_isRelative_characterisation_witness :
    isRelative (fun _ => some { protocol := "mailto:", host := "" }) (fun _ => false)
        "mailto:a@b" =
      isRelativeSpec (fun _ => some { protocol := "mailto:", host := "" }) (fun _ => false)
        "mailto:a@b" ∧
    isRelative (fun _ => some { protocol := "mailto:", host := "" }) (fun _ => false)
        "mailto:a@b" = false :=
  ⟨(c8_isRelative_characterisation (fun _ => some { protocol := "mailto:", host := "" })
      (fun _ => false) "mailto:a@b").1,
    (c8_isRelative_characterisation (fun _ => some { protocol := "mailto:", host := "" })
      (fun _ => false) "mailto:a@b").2 { protocol := "mailto:", host := "" } rfl
      (by decide) (by decide)⟩

/-- Counterexample to C9: the default User-Agent of the rule is
`"textlint-rule-no-dead-link/1.0"`, not `"link-checker/1.0"`, and that is
the value the probe request headers carry under the default options. -/
theorem c9_default_headers_counterexample :
    (createFetchWithRuleDefaults DEFAULT_OPTIONS (fun _ => some "example.com")
      "https://example.com/").userAgent = "textlint-rule-no-dead-link/1.0" ∧
    DEFAULT_OPTIONS.userAgent ≠ "link-checker/1.0" :=
  ⟨rfl, by decide⟩

/-- C9 amended: with no `userAgent` configured, every probe request carries
`User-Agent: textlint-rule-no-dead-link/1.0` and `Accept: */*`, plus a
`Host` header equal to the target host exactly when that host is known and
non-falsy. -/
theorem c9_default_headers_amended (hostOf : String → Option String) (uri : String) :
    (createFetchWithRuleDefaults DEFAULT_OPTIONS hostOf uri).userAgent =
      "textlint-rule-no-dead-link/1.0" ∧
    (createFetchWithRuleDefaults DEFAULT_OPTIONS hostOf uri).accept = "*/*" ∧
    (∀ h, hostOf uri = some h → h ≠ "" →
      (createFetchWithRuleDefaults DEFAULT_OPTIONS hostOf uri).host = some h) ∧
    (hostOf uri = none →
      (createFetchWithRuleDefaults DEFAULT_OPTIONS hostOf uri).host = none) := by
  refine ⟨rfl, rfl, fun h hh hne => ?_, fun hn => ?_⟩
  · simp [createFetchWithRuleDefaults, hh, hne]
  · simp [createFetchWithRuleDefaults, hn]

/-- Witness for C9 amended at a concrete host. -/
theorem c9_default_headers_amended_witness :
    (createFetchWithRuleDefaults DEFAULT_OPTIONS (fun _ => some "example.com")
      "https://example.com/").userAgent = "textlint-rule-no-dead-link/1.0" ∧
    (createFetchWithRuleDefaults DEFAULT_OPTIONS (fun _ => some "example.com")
      "https://example.com/").accept = "*/*" ∧
    (createFetchWithRuleDefaults DEFAULT_OPTIONS (fun _ => some "example.com")
      "https://example.com/").host = some "example.com" :=
  ⟨(c9_default_headers_amended (fun _ => some "example.com") "https://example.com/").1,
    (c9_default_headers_amended (fun _ => some "example.com") "https://example.com/").2.1,
    (c9_default_headers_amended (fun _ => some "example.com") "https://example.com/").2.2.1
      "example.com" rfl (by decide)⟩

/-- One entry of the memoization cache: the key (the memoized function's
first argument), the stored result, and its expiry instant. -/
structure CacheEntry where
  key : String
  data : AliveFunctionReturn
  expireAt : Nat
deriving DecidableEq

/-- Modelled from the `p-memoize` library (mem ≥ 5) that the source wraps
around `isAliveURI`: the default cache key is the memoized function's FIRST
argument only, and an entry past its expiry is treated as absent. -/
def pMemoizeLookup (cache : List CacheEntry) (now : Nat) (key : String) :
    Option AliveFunctionReturn :=
  match cache.find? (fun e => e.key == key) with
  | some e => if now ≤ e.expireAt then some e.data else none
  | none => none

/-- The `memorizedIsAliveURI` value of the source, i.e. `pMemoize(isAliveURI,
{maxAge: linkMaxAge})`.  `probe uri method maxRetryCount` abstracts one full
probe chain, returning its result and the number of network requests it
issued; a cache hit returns the stored result with zero network requests, a
miss runs the probe and stores its result under the key `uri` until
`now + linkMaxAge`. -/
def memorizedIsAliveURI (probe : String → String → Nat → AliveFunctionReturn × Nat)
    (linkMaxAge : Nat) (cache : List CacheEntry) (now : Nat)
    (uri method : String) (maxRetryCount : Nat) :
    AliveFunctionReturn × List CacheEntry × Nat :=
  match pMemoizeLookup cache now uri with
  | some cached => (cached, cache, 0)
  | none =>
    ((probe uri method maxRetryCount).1,
      { key := uri, data := (probe uri method maxRetryCount).1,
        expireAt := now + linkMaxAge } :: cache,
      (probe uri method maxRetryCount).2)

/-- A network rejecting `HEAD` probes with `405` but answering `200 OK` to
any other method. -/
def peMethodSensitive : ProbeEnv :=
  { originOf := fun _ => none
    hashOf := fun _ => none
    resolvePath := fun _ _ => none
    fetchAt := fun _ req =>
      if req.method = "HEAD" then
        FetchOutcome.resp
          { status := 405, statusText := "Method Not Allowed", location := none,
            retryAfter := none, url := "" }
      else
        FetchOutcome.resp
          { status := 200, statusText := "OK", location := none, retryAfter := none,
            url := "" } }

/-- The probe function the source memoizes, instantiated at the
method-sensitive network with the default options. -/
def probeMS (uri method : String) (maxRetryCount : Nat) : AliveFunctionReturn × Nat :=
  ((isAliveURI DEFAULT_OPTIONS peMethodSensitive uri method maxRetryCount 0 0).result,
    (isAliveURI DEFAULT_OPTIONS peMethodSensitive uri method maxRetryCount 0 0).requests.length)

/-- Counterexample to C2: the cache key is the URI alone, so a `HEAD` probe
and a `GET` probe of the same URI DO share a cache entry — the second call
performs zero network requests and returns the first's method-specific
result, which differs from what a direct `GET` probe returns. -/
theorem c2_cache_key_counterexample :
    (memorizedIsAliveURI probeMS 30000 [] 0 "https://e.com/a" "HEAD" 0).1 =
      { ok := false, message := "405 Method Not Allowed" } ∧
    (memorizedIsAliveURI probeMS 30000 [] 0 "https://e.com/a" "HEAD" 0).2.2 = 1 ∧
    (memorizedIsAliveURI probeMS 30000
        (memorizedIsAliveURI probeMS 30000 [] 0 "https://e.com/a" "HEAD" 0).2.1 10
        "https://e.com/a" "GET" 0).1 =
      { ok := false, message := "405 Method Not Allowed" } ∧
    (memorizedIsAliveURI probeMS 30000
        (memorizedIsAliveURI probeMS 30000 [] 0 "https://e.com/a" "HEAD" 0).2.1 10
        "https://e.com/a" "GET" 0).2.2 = 0 ∧
    (probeMS "https://e.com/a" "GET" 0).1 = { ok := true, message := "200 OK" } := by
  have h405 := isAliveURI_exhausted DEFAULT_OPTIONS peMethodSensitive "https://e.com/a" "HEAD"
    0 0 0
    { status := 405, statusText := "Method Not Allowed", location := none,
      retryAfter := none, url := "" }
    rfl rfl (by omega)
  have h200 := isAliveURI_exhausted DEFAULT_OPTIONS peMethodSensitive "https://e.com/a" "GET"
    0 0 0
    { status := 200, statusText := "OK", location := none, retryAfter := none, url := "" }
    rfl rfl (by omega)
  have hHead : probeMS "https://e.com/a" "HEAD" 0 =
      ({ ok := false, message := "405 Method Not Allowed" }, 1) := by
    unfold probeMS
    rw [h405]
    decide
  have hGet : (probeMS "https://e.com/a" "GET" 0).1 = { ok := true, message := "200 OK" } := by
    unfold probeMS
    rw [h200]
    decide
  have hmem1 : memorizedIsAliveURI probeMS 30000 [] 0 "https://e.com/a" "HEAD" 0 =
      ({ ok := false, message := "405 Method Not Allowed" },
        [{ key := "https://e.com/a", data := { ok := false, message := "405 Method Not Allowed" },
           expireAt := 30000 }], 1) := by
    simp [memorizedIsAliveURI, pMemoizeLookup, hHead]
  rw [hmem1]
  exact ⟨rfl, rfl, rfl, rfl, hGet⟩

/-- C2 amended: the memoization cache is keyed by its first argument (the
URI) alone — a call after a miss performs the probe chain's network I/O, and
any second call for the same URI within the TTL performs zero network I/O
and returns the identical cached result, regardless of its method or retry
budget. -/
theorem c2_cache_key_amended (probe : String → String → Nat → AliveFunctionReturn × Nat)
    (maxAge : Nat) (cache : List CacheEntry) (now1 now2 : Nat) (uri m1 m2 : String)
    (r1 r2 : Nat)
    (hmiss : pMemoizeLookup cache now1 uri = none)
    (hfresh : now2 ≤ now1 + maxAge) :
    (memorizedIsAliveURI probe maxAge cache now1 uri m1 r1).2.2 = (probe uri m1 r1).2 ∧
    (memorizedIsAliveURI probe maxAge
        (memorizedIsAliveURI probe maxAge cache now1 uri m1 r1).2.1 now2 uri m2 r2).2.2 = 0 ∧
    (memorizedIsAliveURI probe maxAge
        (memorizedIsAliveURI probe maxAge cache now1 uri m1 r1).2.1 now2 uri m2 r2).1 =
      (memorizedIsAliveURI probe maxAge cache now1 uri m1 r1).1 := by
  have h1 : memorizedIsAliveURI probe maxAge cache now1 uri m1 r1 =
      ((probe uri m1 r1).1,
        { key := uri, data := (probe uri m1 r1).1, expireAt := now1 + maxAge } :: cache,
        (probe uri m1 r1).2) := by
    simp [memorizedIsAliveURI, hmiss]
  have h2 : pMemoizeLookup
      ({ key := uri, data := (probe uri m1 r1).1, expireAt := now1 + maxAge } :: cache)
      now2 uri = some (probe uri m1 r1).1 := by
    have hfind : ({ key := uri, data := (probe uri m1 r1).1, expireAt := now1 + maxAge } ::
        cache).find? (fun e => e.key == uri) =
        some { key := uri, data := (probe uri m1 r1).1, expireAt := now1 + maxAge } :=
      List.find?_cons_of_pos _ (by simp)
    simp [pMemoizeLookup, hfind, hfresh]
  rw [h1]
  simp [memorizedIsAliveURI, h2]

/-- Witness for C2 amended at a concrete probe function and cache. -/
theorem c2_cache_key_amended_witness :
    (memorizedIsAliveURI (fun _ m _ => ({ ok := true, message := m }, 1)) 100 [] 0
      "https://e.com/a" "HEAD" 3).2.2 =
      ((fun (_ m : String) (_ : Nat) => (({ ok := true, message := m } :
        AliveFunctionReturn), 1)) "https://e.com/a" "HEAD" 3).2 ∧
    (memorizedIsAliveURI (fun _ m _ => ({ ok := true, message := m }, 1)) 100
        (memorizedIsAliveURI (fun _ m _ => ({ ok := true, message := m }, 1)) 100 [] 0
          "https://e.com/a" "HEAD" 3).2.1 5 "https://e.com/a" "GET" 0).2.2 = 0 ∧
    (memorizedIsAliveURI (fun _ m _ => ({ ok := true, message := m }, 1)) 100
        (memorizedIsAliveURI (fun _ m _ => ({ ok := true, message := m }, 1)) 100 [] 0
          "https://e.com/a" "HEAD" 3).2.1 5 "https://e.com/a" "GET" 0).1 =
      (memorizedIsAliveURI (fun _ m _ => ({ ok := true, message := m }, 1)) 100 [] 0
        "https://e.com/a" "HEAD" 3).1 :=
  c2_cache_key_amended (fun _ m _ => ({ ok := true, message := m }, 1)) 100 [] 0 5
    "https://e.com/a" "HEAD" "GET" 3 0 rfl (by omega)

end NoDeadLink
